import Mathlib

/-!
Shallow embedding of the SSL certificate checker engine
(`app/services/ssl_checker.py`, `app/models/ssl_models.py`, and the batch
branch of `app/agents/simple_ai_agent.py`).

Modelling conventions:
* Timestamps are integers counting seconds (Python `datetime` values; the
  claims under study are insensitive to sub-second granularity).
  `timedelta.days` is floor division of the difference by 86400 seconds,
  embedded as `Int.fdiv`.
* The fallible prefix of a single-domain check — `_get_certificate`
  (network I/O) followed by the DER decoding step of `_parse_certificate` —
  is an oracle argument of type `Except PyExc ParsedCert`: the Python
  exceptions that the `try` block of `check_certificate` can observe.
  Everything after DER decoding is deterministic and embedded directly.
* Python strings are Lean `String`s (sequences of unicode code points);
  `hex(n)` and f-string interpolation are embedded by `pyHex` / `toString`.
-/

namespace SSLCheck

/-- Exceptions the `try` block of `check_certificate` can catch:
`socket.timeout`, `socket.gaierror`, `ssl.SSLError`, and the
catch-all `Exception` handler. -/
inductive PyExc where
  | timeout
  | gaierror
  | sslError (msg : String)
  | other (msg : String)
deriving Repr, DecidableEq

/-- The structured certificate obtained from `x509.load_der_x509_certificate`:
exactly the fields `_parse_certificate` reads from the library object.
Distinguished names are ordered attribute lists of `(oid name, value)` pairs;
`sanDNSNames` is the DNS-name list of the SAN extension (empty when the
extension is absent, per the `ExtensionNotFound` handler). -/
structure ParsedCert where
  issuerAttrs : List (String × String)
  subjectAttrs : List (String × String)
  notBefore : Int
  notAfter : Int
  keySize : Nat
  sigAlgName : String
  sanDNSNames : List String
  serialNumber : Int
deriving Repr, DecidableEq

/-- Pydantic model `SSLCertificate` (`app/models/ssl_models.py`). -/
structure SSLCertificate where
  domain : String
  isValid : Bool
  issuer : String
  subject : String
  notBefore : Int
  notAfter : Int
  daysUntilExpiry : Int
  isExpired : Bool
  isExpiringSoon : Bool
  keySize : Nat
  signatureAlgorithm : String
  sanList : List String
  serialNumber : String
deriving Repr, DecidableEq

/-- Pydantic model `SSLCheckResult` (`app/models/ssl_models.py`). -/
structure SSLCheckResult where
  domain : String
  success : Bool
  certificate : Option SSLCertificate := none
  error : Option String := none
  checkedAt : Int
  warnings : List String := []
deriving Repr, DecidableEq

/-- The common-name scan of `_parse_certificate`: iterate the attribute
list in order, stop at the first attribute whose oid name is
`"commonName"`, return its value; `none` when the loop falls through. -/
def firstCN : List (String × String) → Option String
  | [] => none
  | (oid, v) :: rest => if oid = "commonName" then some v else firstCN rest

/-- Python `hex(n)`: `"0x"` followed by the lowercase hexadecimal digits of
`n` for `n ≥ 0`, and `"-0x"` followed by the digits of `|n|` for `n < 0`. -/
def pyHex (n : Int) : String :=
  if n < 0 then "-0x" ++ (Nat.toDigits 16 n.natAbs).asString
  else "0x" ++ (Nat.toDigits 16 n.natAbs).asString

/-- Python string slice `s[:k]`: the first `k` code points of `s`. -/
def pySlice (s : String) (k : Nat) : String := String.mk (s.data.take k)

/-- Embedding of `SSLCheckerService._parse_certificate` after DER decoding: field
extraction and the derived judgments.  `warningDays` is
`self.warning_days`, `now` is `datetime.now(not_after.tzinfo)`. -/
def parse_certificate (warningDays now : Int) (parsed : ParsedCert)
    (domain : String) : SSLCertificate :=
  let issuer_cn := (firstCN parsed.issuerAttrs).getD "Unknown"
  let subject_cn := (firstCN parsed.subjectAttrs).getD domain
  let days_until_expiry := Int.fdiv (parsed.notAfter - now) 86400
  let is_expired : Bool := decide (parsed.notAfter < now)
  let is_expiring_soon : Bool :=
    decide (0 < days_until_expiry ∧ days_until_expiry ≤ warningDays)
  { domain := domain
    isValid := !is_expired
    issuer := issuer_cn
    subject := subject_cn
    notBefore := parsed.notBefore
    notAfter := parsed.notAfter
    daysUntilExpiry := days_until_expiry
    isExpired := is_expired
    isExpiringSoon := is_expiring_soon
    keySize := parsed.keySize
    signatureAlgorithm := parsed.sigAlgName
    sanList := parsed.sanDNSNames
    serialNumber := pySlice (pyHex parsed.serialNumber) 16 }

/-- The f-string of the expired branch of `_generate_warnings`. -/
def expiredMsg (daysAgo : Nat) : String :=
  "⚠️ Certificate EXPIRED " ++ toString daysAgo ++ " days ago"

/-- The f-string of the critical branch of `_generate_warnings`. -/
def criticalMsg (days : Int) : String :=
  "🚨 Certificate expires in " ++ toString days ++ " days (CRITICAL)"

/-- The f-string of the expiring-soon branch of `_generate_warnings`. -/
def soonMsg (days : Int) : String :=
  "⚠️ Certificate expires in " ++ toString days ++ " days"

/-- The weak-key warning literal of `_generate_warnings`. -/
def weakKeyMsg : String := "⚠️ Weak key size (< 2048 bits)"

/-- Embedding of `SSLCheckerService._generate_warnings`. -/
def generate_warnings (cert : SSLCertificate) : List String :=
  let w1 : List String :=
    if cert.isExpired then [expiredMsg cert.daysUntilExpiry.natAbs]
    else if cert.daysUntilExpiry ≤ 7 then [criticalMsg cert.daysUntilExpiry]
    else if cert.isExpiringSoon then [soonMsg cert.daysUntilExpiry]
    else []
  w1 ++ (if cert.keySize < 2048 then [weakKeyMsg] else [])

/-- Embedding of `SSLCheckerService.check_certificate`.  `fetched` is the outcome of
`_get_certificate` plus DER decoding inside the `try` block; `now` stands
for both the evaluation clock and the `checkedAt` default factory. -/
def check_certificate (warningDays now : Int) (domain : String) (_port : Nat)
    (fetched : Except PyExc ParsedCert) : SSLCheckResult :=
  match fetched with
  | .ok parsed =>
    let certificate := parse_certificate warningDays now parsed domain
    let warnings := generate_warnings certificate
    { domain := domain, success := true, certificate := some certificate,
      error := none, checkedAt := now, warnings := warnings }
  | .error .timeout =>
    { domain := domain, success := false, error := some "Connection timeout",
      checkedAt := now }
  | .error .gaierror =>
    { domain := domain, success := false,
      error := some "Domain not found (DNS error)", checkedAt := now }
  | .error (.sslError m) =>
    { domain := domain, success := false, error := some ("SSL error: " ++ m),
      checkedAt := now }
  | .error (.other m) =>
    { domain := domain, success := false,
      error := some ("Unexpected error: " ++ m), checkedAt := now }

/-- One entry of the `results` list built by the `check_multiple_domains`
branch of `SSLAgent._execute_function`: either the success dict
(`domain`, `status`, `days_remaining`, `expires`) or the error dict
(`domain`, `status`, `error`). -/
inductive BatchEntry where
  | ok (domain status : String) (daysRemaining : Int) (expires : String)
  | err (domain status error : String)
deriving Repr, DecidableEq

/-- The dict returned by the `check_multiple_domains` branch of
`SSLAgent._execute_function`. -/
structure BatchOut where
  success : Bool
  total_domains : Nat
  results : List BatchEntry
  message : String
deriving Repr, DecidableEq

/-- The per-domain body of the `for domain in domains` loop of
`_execute_function`: run `check_certificate` and build the summary dict.
`strf` embeds `datetime.strftime('%Y-%m-%d')`.  The `none` branch of the
success case cannot arise from `check_certificate` (in Python it would be
an `AttributeError` on `None`). -/
def summarizeDomain (warningDays now : Int)
    (env : String → Except PyExc ParsedCert) (strf : Int → String)
    (domain : String) : BatchEntry :=
  let result := check_certificate warningDays now domain 443 (env domain)
  if result.success then
    match result.certificate with
    | some cert =>
      .ok domain (if cert.isValid then "✅ Valid" else "❌ Invalid")
        cert.daysUntilExpiry (strf cert.notAfter)
    | none => .err domain "❌ Error" "AttributeError"
  else
    .err domain "❌ Error" (result.error.getD "None")

/-- The `check_multiple_domains` branch of `SSLAgent._execute_function`:
a `for` loop appending one summary per input domain, then the result dict
with `total_domains = len(domains)`. -/
def check_multiple_domains (warningDays now : Int)
    (env : String → Except PyExc ParsedCert) (strf : Int → String)
    (domains : List String) : BatchOut :=
  let results := domains.foldl
    (fun acc domain => acc ++ [summarizeDomain warningDays now env strf domain]) []
  { success := true
    total_domains := domains.length
    results := results
    message := "Checked " ++ toString domains.length ++ " domain(s)" }

/-- A Python statement in a function body, as observed at the return
boundary: `some r` when the statement executes `return r`, `none` when it
falls through. -/
def runStmts {α : Type} (stmts : List (Option α)) : Option α :=
  stmts.findSome? id

/-- The `try`/`except` block that appears (as dead code) after the `return`
statement inside `check_domain` — a verbatim duplicate of the body of
`check_certificate`. -/
def checkDomainDeadBody (warningDays now : Int) (domain : String)
    (_port : Nat) (fetched : Except PyExc ParsedCert) : SSLCheckResult :=
  match fetched with
  | .ok parsed =>
    let certificate := parse_certificate warningDays now parsed domain
    let warnings := generate_warnings certificate
    { domain := domain, success := true, certificate := some certificate,
      error := none, checkedAt := now, warnings := warnings }
  | .error .timeout =>
    { domain := domain, success := false, error := some "Connection timeout",
      checkedAt := now }
  | .error .gaierror =>
    { domain := domain, success := false,
      error := some "Domain not found (DNS error)", checkedAt := now }
  | .error (.sslError m) =>
    { domain := domain, success := false, error := some ("SSL error: " ++ m),
      checkedAt := now }
  | .error (.other m) =>
    { domain := domain, success := false,
      error := some ("Unexpected error: " ++ m), checkedAt := now }

/-- Embedding of `SSLCheckerService.check_domain`: its body is the statement sequence
`return self.check_certificate(domain, port)`, a docstring expression
statement, and the duplicated `try`/`except` block; Python executes them
in order until the first `return`. -/
def check_domain (warningDays now : Int) (domain : String) (port : Nat)
    (fetched : Except PyExc ParsedCert) : Option SSLCheckResult :=
  runStmts
    [ some (check_certificate warningDays now domain port fetched),
      none,
      some (checkDomainDeadBody warningDays now domain port fetched) ]

/-! ### Helper lemmas -/

/-- Python `timedelta.days` on a seconds difference, rewritten to Euclidean
division (equal to floor division for the positive divisor 86400). -/
lemma fdiv_86400_eq (d : Int) : Int.fdiv d 86400 = d / 86400 :=
  Int.fdiv_eq_ediv _ (by norm_num)

/-- A `for` loop that appends one element per iteration builds the map. -/
lemma foldl_append_singleton_eq_map {α β : Type} (f : α → β) :
    ∀ (l : List α) (acc : List β),
      l.foldl (fun a x => a ++ [f x]) acc = acc ++ l.map f := by
  intro l
  induction l with
  | nil => intro acc; simp
  | cons x xs ih => intro acc; simp [List.foldl_cons, ih]

end SSLCheck

namespace SSLCheck

/-! ### Claim theorems -/

/-- C1: `check_certificate` never propagates an exception: every fetch or
parse failure (timeout, DNS error, TLS error, any other exception) is
converted into an `SSLCheckResult` with `success = false`; the
`certificate` field is present iff `success` is true, and the `error`
string is present iff `success` is false. -/
theorem claim_C1 (warningDays now : Int) (domain : String) (port : Nat)
    (fetched : Except PyExc ParsedCert) :
    let r := check_certificate warningDays now domain port fetched
    (r.certificate.isSome = true ↔ r.success = true) ∧
    (r.error.isSome = true ↔ r.success = false) ∧
    (∀ e : PyExc, fetched = .error e → r.success = false) ∧
    (∀ p : ParsedCert, fetched = .ok p → r.success = true) := by
  cases fetched with
  | ok p => simp [check_certificate]
  | error e => cases e <;> simp [check_certificate]

/-- Witness for C1 at a concrete failing fetch. -/
theorem claim_C1_witness :
    (check_certificate 30 0 "example.com" 443
        (Except.error PyExc.gaierror)).success = false :=
  (claim_C1 30 0 "example.com" 443 (Except.error PyExc.gaierror)).2.2.1
    PyExc.gaierror rfl

/-- C2: `check_multiple_domains` returns `total_domains = N` and exactly
one per-domain summary for each input domain, in input order, with no
deduplication; each entry is a function of its own domain alone, so one
domain's failure cannot suppress, reorder, or alter another's entry. -/
theorem claim_C2 (warningDays now : Int)
    (env : String → Except PyExc ParsedCert) (strf : Int → String)
    (domains : List String) :
    let out := check_multiple_domains warningDays now env strf domains
    out.total_domains = domains.length ∧
    out.results.length = domains.length ∧
    out.results = domains.map (summarizeDomain warningDays now env strf) ∧
    (∀ i : Nat, out.results[i]? =
      (domains[i]?).map (summarizeDomain warningDays now env strf)) := by
  have hmap : (check_multiple_domains warningDays now env strf domains).results
      = domains.map (summarizeDomain warningDays now env strf) := by
    simp [check_multiple_domains, foldl_append_singleton_eq_map]
  refine ⟨rfl, ?_, hmap, ?_⟩
  · rw [hmap]; simp
  · intro i; rw [hmap]; simp

/-- C10: the asynchronous `check_domain` returns exactly
`check_certificate` on the same arguments: its first statement is
`return self.check_certificate(domain, port)`, so the duplicated
`try`/`except` body that follows it is unreachable and never executes. -/
theorem claim_C10 (warningDays now : Int) (domain : String) (port : Nat)
    (fetched : Except PyExc ParsedCert) :
    check_domain warningDays now domain port fetched =
      some (check_certificate warningDays now domain port fetched) := rfl

/-- C3 counterexample: a certificate whose `notAfter` is one second in the
future yields `daysUntilExpiry = 0`, refuting `daysUntilExpiry > 0`
(`timedelta.days` floors the sub-day difference to 0). -/
theorem claim_C3_counterexample :
    let parsed : ParsedCert :=
      { issuerAttrs := [], subjectAttrs := [], notBefore := 0,
        notAfter := 1000001, keySize := 2048,
        sigAlgName := "sha256WithRSAEncryption", sanDNSNames := [],
        serialNumber := 1 }
    let c := parse_certificate 30 1000000 parsed "example.com"
    1000000 < parsed.notAfter ∧ c.isExpired = false ∧
      ¬ 0 < c.daysUntilExpiry := by
  refine ⟨by norm_num, by decide, by decide⟩

/-- C3 amended: when `notAfter` is in the future, `isExpired = false` and
`daysUntilExpiry ≥ 0`; `daysUntilExpiry > 0` holds once `notAfter` is at
least one full day (86400 seconds) in the future, but is 0 when `notAfter`
is less than one day ahead. -/
theorem claim_C3_amended (warningDays now : Int) (parsed : ParsedCert)
    (domain : String) (hfut : now < parsed.notAfter) :
    let c := parse_certificate warningDays now parsed domain
    c.isExpired = false ∧ 0 ≤ c.daysUntilExpiry ∧
    (now + 86400 ≤ parsed.notAfter → 0 < c.daysUntilExpiry) ∧
    (parsed.notAfter < now + 86400 → c.daysUntilExpiry = 0) := by
  simp only [parse_certificate, fdiv_86400_eq, decide_eq_false_iff_not,
    not_lt]
  refine ⟨le_of_lt hfut, by omega, by omega, by omega⟩

/-- Witness for C3 amended: `notAfter` exactly two days ahead. -/
theorem claim_C3_amended_witness :
    let parsed : ParsedCert :=
      { issuerAttrs := [], subjectAttrs := [], notBefore := 0,
        notAfter := 172800, keySize := 2048,
        sigAlgName := "sha256WithRSAEncryption", sanDNSNames := [],
        serialNumber := 1 }
    (parse_certificate 30 0 parsed "example.com").isExpired = false ∧
      0 < (parse_certificate 30 0 parsed "example.com").daysUntilExpiry := by
  have h := claim_C3_amended 30 0
    { issuerAttrs := [], subjectAttrs := [], notBefore := 0,
      notAfter := 172800, keySize := 2048,
      sigAlgName := "sha256WithRSAEncryption", sanDNSNames := [],
      serialNumber := 1 } "example.com" (by norm_num)
  exact ⟨h.1, h.2.2.1 (by norm_num)⟩

/-- C4: when `notAfter` is in the past, `isExpired = true`,
`isValid = false` and `isExpiringSoon = false`; and unconditionally
`isValid = not isExpired`. -/
theorem claim_C4 (warningDays now : Int) (parsed : ParsedCert)
    (domain : String) :
    let c := parse_certificate warningDays now parsed domain
    c.isValid = !c.isExpired ∧
    (parsed.notAfter < now →
      c.isExpired = true ∧ c.isValid = false ∧ c.isExpiringSoon = false) := by
  refine ⟨rfl, fun hpast => ?_⟩
  simp only [parse_certificate, fdiv_86400_eq]
  refine ⟨by simpa using hpast, by simp [hpast], ?_⟩
  simp only [decide_eq_false_iff_not, not_and, not_le]
  intro hd
  omega

/-- Witness for C4: `notAfter` one second in the past. -/
theorem claim_C4_witness :
    let parsed : ParsedCert :=
      { issuerAttrs := [], subjectAttrs := [], notBefore := 0,
        notAfter := 999999, keySize := 2048,
        sigAlgName := "sha256WithRSAEncryption", sanDNSNames := [],
        serialNumber := 1 }
    (parse_certificate 30 1000000 parsed "example.com").isExpired = true ∧
    (parse_certificate 30 1000000 parsed "example.com").isValid = false ∧
    (parse_certificate 30 1000000 parsed "example.com").isExpiringSoon
      = false := by
  have h := claim_C4 30 1000000
    { issuerAttrs := [], subjectAttrs := [], notBefore := 0,
      notAfter := 999999, keySize := 2048,
      sigAlgName := "sha256WithRSAEncryption", sanDNSNames := [],
      serialNumber := 1 } "example.com"
  exact h.2 (by norm_num)

/-- C5: `isExpiringSoon` holds iff `0 < daysUntilExpiry ≤ warningDays`;
in particular it is true at `daysUntilExpiry = warningDays` (for a
positive threshold such as the default 30) and false at
`warningDays + 1`. -/
theorem claim_C5 (warningDays now : Int) (parsed : ParsedCert)
    (domain : String) :
    let c := parse_certificate warningDays now parsed domain
    (c.isExpiringSoon = true ↔
      0 < c.daysUntilExpiry ∧ c.daysUntilExpiry ≤ warningDays) ∧
    (0 < warningDays → c.daysUntilExpiry = warningDays →
      c.isExpiringSoon = true) ∧
    (c.daysUntilExpiry = warningDays + 1 → c.isExpiringSoon = false) := by
  simp only [parse_certificate, fdiv_86400_eq, decide_eq_true_eq,
    decide_eq_false_iff_not, not_and, not_le]
  exact ⟨trivial, fun hw hd => by omega, fun hd => by omega⟩

/-- Witness for C5: with the default threshold 30, a certificate exactly
30 days from expiry is expiring soon, one 31 days out is not. -/
theorem claim_C5_witness :
    let p30 : ParsedCert :=
      { issuerAttrs := [], subjectAttrs := [], notBefore := 0,
        notAfter := 2592000, keySize := 2048,
        sigAlgName := "sha256WithRSAEncryption", sanDNSNames := [],
        serialNumber := 1 }
    let p31 : ParsedCert := { p30 with notAfter := 2678400 }
    (parse_certificate 30 0 p30 "example.com").isExpiringSoon = true ∧
    (parse_certificate 30 0 p31 "example.com").isExpiringSoon = false := by
  constructor
  · exact (claim_C5 30 0
      { issuerAttrs := [], subjectAttrs := [], notBefore := 0,
        notAfter := 2592000, keySize := 2048,
        sigAlgName := "sha256WithRSAEncryption", sanDNSNames := [],
        serialNumber := 1 } "example.com").2.1 (by norm_num) (by decide)
  · exact (claim_C5 30 0
      { issuerAttrs := [], subjectAttrs := [], notBefore := 0,
        notAfter := 2678400, keySize := 2048,
        sigAlgName := "sha256WithRSAEncryption", sanDNSNames := [],
        serialNumber := 1 } "example.com").2.2 (by decide)

/-- C9: `isExpired` is true iff `daysUntilExpiry` is strictly negative;
when expired, `daysUntilExpiry ≤ -1` and the expired warning heads the
warning list citing `|daysUntilExpiry| ≥ 1` days; when not expired,
`daysUntilExpiry ≥ 0`. -/
theorem claim_C9 (warningDays now : Int) (parsed : ParsedCert)
    (domain : String) :
    let c := parse_certificate warningDays now parsed domain
    (c.isExpired = true ↔ c.daysUntilExpiry < 0) ∧
    (c.isExpired = true →
      c.daysUntilExpiry ≤ -1 ∧ 1 ≤ c.daysUntilExpiry.natAbs ∧
      generate_warnings c = expiredMsg c.daysUntilExpiry.natAbs ::
        (if c.keySize < 2048 then [weakKeyMsg] else [])) ∧
    (c.isExpired = false → 0 ≤ c.daysUntilExpiry) := by
  intro c
  have hdays : c.daysUntilExpiry = (parsed.notAfter - now) / 86400 := by
    simp [c, parse_certificate, fdiv_86400_eq]
  have hexp : c.isExpired = decide (parsed.notAfter < now) := rfl
  have hiff : c.isExpired = true ↔ c.daysUntilExpiry < 0 := by
    rw [hexp, hdays, decide_eq_true_eq]
    omega
  refine ⟨hiff, fun he => ?_, fun he => ?_⟩
  · have hneg : c.daysUntilExpiry < 0 := hiff.mp he
    refine ⟨by omega, by omega, ?_⟩
    simp [generate_warnings, he]
  · have h0 : ¬ c.isExpired = true := by simp [he]
    have : ¬ c.daysUntilExpiry < 0 := fun hlt => h0 (hiff.mpr hlt)
    omega

/-- Witness for C9: a certificate one second past expiry reports
`daysUntilExpiry = -1`, hence at least one day since expiry. -/
theorem claim_C9_witness :
    let parsed : ParsedCert :=
      { issuerAttrs := [], subjectAttrs := [], notBefore := 0,
        notAfter := 999999, keySize := 4096,
        sigAlgName := "sha256WithRSAEncryption", sanDNSNames := [],
        serialNumber := 1 }
    let c := parse_certificate 30 1000000 parsed "example.com"
    c.daysUntilExpiry ≤ -1 ∧ 1 ≤ c.daysUntilExpiry.natAbs := by
  have h := (claim_C9 30 1000000
    { issuerAttrs := [], subjectAttrs := [], notBefore := 0,
      notAfter := 999999, keySize := 4096,
      sigAlgName := "sha256WithRSAEncryption", sanDNSNames := [],
      serialNumber := 1 } "example.com").2.1 (by decide)
  exact ⟨h.1, h.2.1⟩

/-- The expired warning is never the weak-key warning: its fixed text is
already longer (32 vs 30 code points). -/
lemma expiredMsg_ne_weak (n : Nat) : expiredMsg n ≠ weakKeyMsg := by
  intro h
  have hl := congrArg String.length h
  simp only [expiredMsg, weakKeyMsg, String.length_append] at hl
  have h1 : "⚠️ Certificate EXPIRED ".length = 23 := rfl
  have h2 : " days ago".length = 9 := rfl
  have h3 : "⚠️ Weak key size (< 2048 bits)".length = 30 := rfl
  omega

/-- The critical warning is never the weak-key warning (41 vs 30 fixed
code points). -/
lemma criticalMsg_ne_weak (d : Int) : criticalMsg d ≠ weakKeyMsg := by
  intro h
  have hl := congrArg String.length h
  simp only [criticalMsg, weakKeyMsg, String.length_append] at hl
  have h1 : "🚨 Certificate expires in ".length = 25 := rfl
  have h2 : " days (CRITICAL)".length = 16 := rfl
  have h3 : "⚠️ Weak key size (< 2048 bits)".length = 30 := rfl
  omega

/-- The expiring-soon warning is never the weak-key warning (31 vs 30
fixed code points). -/
lemma soonMsg_ne_weak (d : Int) : soonMsg d ≠ weakKeyMsg := by
  intro h
  have hl := congrArg String.length h
  simp only [soonMsg, weakKeyMsg, String.length_append] at hl
  have h1 : "⚠️ Certificate expires in ".length = 26 := rfl
  have h2 : " days".length = 5 := rfl
  have h3 : "⚠️ Weak key size (< 2048 bits)".length = 30 := rfl
  omega

/-- The expiry-related part of `_generate_warnings` is `[]` or a single
warning distinct from the weak-key warning. -/
lemma expiry_warnings_cases (cert : SSLCertificate) :
    (if cert.isExpired then [expiredMsg cert.daysUntilExpiry.natAbs]
     else if cert.daysUntilExpiry ≤ 7 then [criticalMsg cert.daysUntilExpiry]
     else if cert.isExpiringSoon then [soonMsg cert.daysUntilExpiry]
     else []) = [] ∨
    ∃ m, (if cert.isExpired then [expiredMsg cert.daysUntilExpiry.natAbs]
     else if cert.daysUntilExpiry ≤ 7 then [criticalMsg cert.daysUntilExpiry]
     else if cert.isExpiringSoon then [soonMsg cert.daysUntilExpiry]
     else []) = [m] ∧ m ≠ weakKeyMsg := by
  split_ifs with h1 h2 h3
  · exact Or.inr ⟨_, rfl, expiredMsg_ne_weak _⟩
  · exact Or.inr ⟨_, rfl, criticalMsg_ne_weak _⟩
  · exact Or.inr ⟨_, rfl, soonMsg_ne_weak _⟩
  · exact Or.inl rfl

/-- C6: `_generate_warnings` emits the expiry warnings in priority order
(expired with `|daysUntilExpiry|`, else critical when
`daysUntilExpiry ≤ 7`, else the generic expiring-soon warning), at most
one of them; and independently the weak-key warning is in the output iff
`keySize < 2048`. -/
theorem claim_C6 (cert : SSLCertificate) :
    generate_warnings cert =
      (if cert.isExpired then [expiredMsg cert.daysUntilExpiry.natAbs]
       else if cert.daysUntilExpiry ≤ 7 then
         [criticalMsg cert.daysUntilExpiry]
       else if cert.isExpiringSoon then [soonMsg cert.daysUntilExpiry]
       else []) ++ (if cert.keySize < 2048 then [weakKeyMsg] else []) ∧
    ((generate_warnings cert).filter
      (fun s => decide (s ≠ weakKeyMsg))).length ≤ 1 ∧
    (weakKeyMsg ∈ generate_warnings cert ↔ cert.keySize < 2048) := by
  refine ⟨rfl, ?_, ?_⟩
  · show ((_ ++ (if cert.keySize < 2048 then [weakKeyMsg] else [])).filter
      (fun s => decide (s ≠ weakKeyMsg))).length ≤ 1
    rw [List.filter_append]
    have hkey : (if cert.keySize < 2048 then [weakKeyMsg]
        else ([] : List String)).filter
        (fun s => decide (s ≠ weakKeyMsg)) = [] := by
      split_ifs <;> simp
    rw [hkey]
    rcases expiry_warnings_cases cert with h | ⟨m, hm, _⟩
    · rw [h]; simp
    · rw [hm]
      simp [List.length_filter_le]
      have := List.length_filter_le (fun s => decide (s ≠ weakKeyMsg)) [m]
      simpa using this
  · show weakKeyMsg ∈ _ ++ (if cert.keySize < 2048 then [weakKeyMsg]
      else []) ↔ cert.keySize < 2048
    rw [List.mem_append]
    have hnot : weakKeyMsg ∉
        (if cert.isExpired then [expiredMsg cert.daysUntilExpiry.natAbs]
         else if cert.daysUntilExpiry ≤ 7 then
           [criticalMsg cert.daysUntilExpiry]
         else if cert.isExpiringSoon then [soonMsg cert.daysUntilExpiry]
         else []) := by
      rcases expiry_warnings_cases cert with h | ⟨m, hm, hne⟩
      · rw [h]; simp
      · rw [hm]
        simp only [List.mem_singleton]
        exact fun hw => hne (hw ▸ rfl)
    constructor
    · rintro (h | h)
      · exact absurd h hnot
      · by_cases hk : cert.keySize < 2048
        · exact hk
        · simp [hk] at h
    · intro hk
      right
      simp [hk]

/-- C7: the rendered serial number is a deterministic function of the
serial alone, and its length is exactly 16 code points, or shorter only
when the full `hex(serial)` rendering is itself shorter than 16 (in which
case the rendering is the untruncated hex string). -/
theorem claim_C7 (warningDays now : Int) (parsed : ParsedCert)
    (domain : String) (warningDays' now' : Int) (parsed' : ParsedCert)
    (domain' : String) :
    let c := parse_certificate warningDays now parsed domain
    (parsed.serialNumber = parsed'.serialNumber →
      c.serialNumber =
        (parse_certificate warningDays' now' parsed' domain').serialNumber) ∧
    ((c.serialNumber.length = 16 ∧ 16 ≤ (pyHex parsed.serialNumber).length) ∨
     (c.serialNumber = pyHex parsed.serialNumber ∧
       (pyHex parsed.serialNumber).length < 16)) := by
  constructor
  · intro h
    show pySlice (pyHex parsed.serialNumber) 16 =
      pySlice (pyHex parsed'.serialNumber) 16
    rw [h]
  · show ((pySlice (pyHex parsed.serialNumber) 16).length = 16 ∧ _) ∨
      (pySlice (pyHex parsed.serialNumber) 16 = pyHex parsed.serialNumber ∧ _)
    by_cases hlen : 16 ≤ (pyHex parsed.serialNumber).length
    · refine Or.inl ⟨?_, hlen⟩
      show ((pyHex parsed.serialNumber).data.take 16).length = 16
      rw [List.length_take]
      exact Nat.min_eq_left hlen
    · refine Or.inr ⟨?_, by omega⟩
      show String.mk ((pyHex parsed.serialNumber).data.take 16) =
        pyHex parsed.serialNumber
      have : (pyHex parsed.serialNumber).data.take 16 =
          (pyHex parsed.serialNumber).data := by
        apply List.take_of_length_le
        show (pyHex parsed.serialNumber).data.length ≤ 16
        have hd : (pyHex parsed.serialNumber).length =
            (pyHex parsed.serialNumber).data.length := rfl
        omega
      rw [this]

/-- Witness for C7: two parses sharing a serial agree on its rendering,
and a short serial renders untruncated. -/
theorem claim_C7_witness :
    let p : ParsedCert :=
      { issuerAttrs := [], subjectAttrs := [], notBefore := 0,
        notAfter := 10, keySize := 2048,
        sigAlgName := "sha256WithRSAEncryption", sanDNSNames := [],
        serialNumber := 255 }
    let q : ParsedCert := { p with notAfter := 20, keySize := 1024 }
    (parse_certificate 30 0 p "a.com").serialNumber =
      (parse_certificate 7 5 q "b.com").serialNumber :=
  (claim_C7 30 0
    { issuerAttrs := [], subjectAttrs := [], notBefore := 0,
      notAfter := 10, keySize := 2048,
      sigAlgName := "sha256WithRSAEncryption", sanDNSNames := [],
      serialNumber := 255 } "a.com" 7 5
    { issuerAttrs := [], subjectAttrs := [], notBefore := 0,
      notAfter := 20, keySize := 1024,
      sigAlgName := "sha256WithRSAEncryption", sanDNSNames := [],
      serialNumber := 255 } "b.com").1 rfl

/-- Lemma that `firstCN` is the first-match scan: it returns the value of the first
attribute whose oid name is `"commonName"`. -/
lemma firstCN_eq_find? (l : List (String × String)) :
    firstCN l = (l.find? (fun a => a.1 == "commonName")).map Prod.snd := by
  induction l with
  | nil => rfl
  | cons a rest ih =>
    rcases a with ⟨oid, v⟩
    by_cases h : oid = "commonName"
    · simp [firstCN, h]
    · simp only [firstCN, if_neg h]
      rw [List.find?_cons_of_neg _ (by simpa using h)]
      exact ih

/-- C8: `issuer` is the value of the first common-name attribute of the
issuer distinguished name, with literal fallback `"Unknown"` when none
exists; `subject` likewise from the subject distinguished name, with the
queried `domain` as fallback. -/
theorem claim_C8 (warningDays now : Int) (parsed : ParsedCert)
    (domain : String) :
    let c := parse_certificate warningDays now parsed domain
    c.issuer = ((parsed.issuerAttrs.find?
      (fun a => a.1 == "commonName")).map Prod.snd).getD "Unknown" ∧
    c.subject = ((parsed.subjectAttrs.find?
      (fun a => a.1 == "commonName")).map Prod.snd).getD domain ∧
    ((∀ a ∈ parsed.issuerAttrs, a.1 ≠ "commonName") →
      c.issuer = "Unknown") ∧
    ((∀ a ∈ parsed.subjectAttrs, a.1 ≠ "commonName") →
      c.subject = domain) := by
  have hiss : (parse_certificate warningDays now parsed domain).issuer =
      (firstCN parsed.issuerAttrs).getD "Unknown" := rfl
  have hsub : (parse_certificate warningDays now parsed domain).subject =
      (firstCN parsed.subjectAttrs).getD domain := rfl
  refine ⟨by rw [hiss, firstCN_eq_find?], by rw [hsub, firstCN_eq_find?],
    fun hnone => ?_, fun hnone => ?_⟩
  · rw [hiss, firstCN_eq_find?]
    have : parsed.issuerAttrs.find? (fun a => a.1 == "commonName") = none :=
      List.find?_eq_none.mpr (fun x hx => by simpa using hnone x hx)
    rw [this]
    rfl
  · rw [hsub, firstCN_eq_find?]
    have : parsed.subjectAttrs.find? (fun a => a.1 == "commonName") = none :=
      List.find?_eq_none.mpr (fun x hx => by simpa using hnone x hx)
    rw [this]
    rfl

/-- Witness for C8: an issuer carrying a common name and a subject
carrying none. -/
theorem claim_C8_witness :
    let parsed : ParsedCert :=
      { issuerAttrs := [("organizationName", "DigiCert Inc"),
                        ("commonName", "DigiCert CA"),
                        ("commonName", "Shadowed")],
        subjectAttrs := [("organizationName", "Example Org")],
        notBefore := 0, notAfter := 10, keySize := 2048,
        sigAlgName := "sha256WithRSAEncryption", sanDNSNames := [],
        serialNumber := 1 }
    (parse_certificate 30 0 parsed "example.com").issuer = "DigiCert CA" ∧
    (parse_certificate 30 0 parsed "example.com").subject
      = "example.com" := by
  have h := claim_C8 30 0
    { issuerAttrs := [("organizationName", "DigiCert Inc"),
                      ("commonName", "DigiCert CA"),
                      ("commonName", "Shadowed")],
      subjectAttrs := [("organizationName", "Example Org")],
      notBefore := 0, notAfter := 10, keySize := 2048,
      sigAlgName := "sha256WithRSAEncryption", sanDNSNames := [],
      serialNumber := 1 } "example.com"
  exact ⟨by rw [h.1]; rfl, h.2.2.2 (by decide)⟩

end SSLCheck
